import Mathlib

/-
Verification of the query gateway in claude-api.py: the filter expression
compiler, the result value normalizer, and the /query orchestrator.

Modelling conventions:
- JSON request values are the inductive type JVal; a JSON null and an absent
  key both surface as Python None through dict.get, which dictGet reflects.
- Python floats are modelled as rationals.
- Python AttributeError / ValueError / TypeError raised inside the handler
  are modelled with Except String; the outer try/except of query_collection
  maps any such error to a 500 response.
- Literal messages in responses are kept close to the source but without
  quote characters.
-/

namespace ClaudeApi

/-- A JSON value as delivered by flask request.json. -/
inductive JVal where
  | jNull
  | jBool (b : Bool)
  | jNum (q : ℚ)
  | jStr (s : String)
  | jList (xs : List JVal)
  | jObj (kvs : List (String × JVal))

/-- Python truthiness of a JSON value: None, False, 0, empty string, empty
list and empty dict are falsy, everything else is truthy. -/
def truthy : JVal → Bool
  | .jNull => false
  | .jBool b => b
  | .jNum q => decide (q ≠ 0)
  | .jStr s => !s.isEmpty
  | .jList xs => !xs.isEmpty
  | .jObj kvs => !kvs.isEmpty

/-- First value stored under a key, if the key is present at all. -/
def lookupKey (kvs : List (String × JVal)) (k : String) : Option JVal :=
  match kvs.find? (fun kv => kv.1 == k) with
  | some kv => some kv.2
  | none => none

/-- Python d.get(k): None when the key is absent; a stored JSON null is the
same Python None, so both collapse to jNull. -/
def dictGet (kvs : List (String × JVal)) (k : String) : JVal :=
  (lookupKey kvs k).getD .jNull

/-- Python d.get(k, dflt): the stored value when the key is present (a stored
null stays null), dflt only when the key is absent. -/
def dictGetD (kvs : List (String × JVal)) (k : String) (dflt : JVal) : JVal :=
  (lookupKey kvs k).getD dflt

/-- Is this value a JSON/Python string. -/
def isJStr : JVal → Bool
  | .jStr _ => true
  | _ => false

/-- Is this value Python None (JSON null or absent). -/
def isNull : JVal → Bool
  | .jNull => true
  | _ => false

/-- The per-field comparison methods of weaviate Filter.by_property. -/
inductive FilterComp where
  | equal
  | not_equal
  | greater_than
  | greater_or_equal
  | less_than
  | less_or_equal
  | like

/-- A weaviate filter tree: a per-field comparison, or one flat combinator
(Filter.all_of / Filter.any_of) over a list of filters. -/
inductive WeaviateFilter where
  | comparison (field : JVal) (cmp : FilterComp) (value : JVal)
  | all_of (conds : List WeaviateFilter)
  | any_of (conds : List WeaviateFilter)

/-- Python str.lower(), character by character over the underlying list. -/
def pyLower (s : String) : String :=
  String.mk (s.data.map Char.toLower)

/-- Keys of the supported_ops table in query_collection (lines 173-181). -/
def supported_ops : List String :=
  ["eq", "neq", "gt", "gte", "lt", "lte", "like"]

/-- The body of the conditions loop (lines 183-212) for one condition.
Returns ok none when the condition is skipped, ok (some f) when it
contributes the comparison f, and error when the Python raises: cond.get on
a non-dict entry and .lower() on a non-string operator value both raise
AttributeError. -/
def compileCondition (cond : JVal) : Except String (Option WeaviateFilter) :=
  match cond with
  | .jObj ckvs =>
    let field := dictGet ckvs "field"
    match dictGetD ckvs "operator" (.jStr "") with
    | .jStr opRaw =>
      let op := pyLower opRaw
      let value := dictGet ckvs "value"
      if !(truthy field) || !(supported_ops.contains op) || isNull value then
        .ok none
      else if op == "eq" then .ok (some (.comparison field .equal value))
      else if op == "neq" then .ok (some (.comparison field .not_equal value))
      else if op == "gt" then .ok (some (.comparison field .greater_than value))
      else if op == "gte" then .ok (some (.comparison field .greater_or_equal value))
      else if op == "lt" then .ok (some (.comparison field .less_than value))
      else if op == "lte" then .ok (some (.comparison field .less_or_equal value))
      else if op == "like" then
        if isJStr value then .ok (some (.comparison field .like value))
        else .ok none
      else .ok none
    | _ => .error "AttributeError: lower"
  | _ => .error "AttributeError: get"

/-- The conditions loop: conditions are visited in order, each contributing
its comparison or being skipped; the first raised error aborts the loop. -/
def compileConditions : List JVal → Except String (List WeaviateFilter)
  | [] => .ok []
  | cond :: rest =>
    match compileCondition cond with
    | .error e => .error e
    | .ok none => compileConditions rest
    | .ok (some f) =>
      match compileConditions rest with
      | .error e => .error e
      | .ok fs => .ok (f :: fs)

/-- Lines 166-221: build the weaviate filter from the filters member of the
request body. Returns ok none when no filter is applied and error when the
Python raises inside the block. -/
def build_weaviate_filter (filters_input : JVal) : Except String (Option WeaviateFilter) :=
  match filters_input with
  | .jObj fkvs =>
    if fkvs.isEmpty then .ok none  -- an empty dict is falsy: the whole block is skipped
    else
      let conditions_input := dictGetD fkvs "conditions" (.jList [])
      match dictGetD fkvs "operator" (.jStr "And") with
      | .jStr opRaw =>
        let operator_type := pyLower opRaw
        match conditions_input with
        | .jList conds =>
          if conds.isEmpty then .ok none  -- falsy conditions list: filter stays None
          else
            match compileConditions conds with
            | .error e => .error e
            | .ok filter_conditions =>
              if filter_conditions.isEmpty then .ok none
              else if operator_type == "or" then .ok (some (.any_of filter_conditions))
              else .ok (some (.all_of filter_conditions))
        | _ => .ok none  -- conditions member is not a list: filter stays None
      | _ => .error "AttributeError: lower"  -- non-string operator member
  | _ => .ok none  -- absent, null or non-dict filters member: no filter

/-- A backend property value as handed over by the weaviate client.
vDatetime carries the string its isoformat() returns, vUUID the string str()
returns. The latlon field models the hasattr latitude / hasattr longitude
check of the source: any Python object, including datetime, uuid, list and
dict instances of subclasses, may expose those two attributes, so the
capability is carried alongside the kind. vObj is any other backend object;
a GeoCoordinate is a vObj whose latlon is present. -/
inductive PyVal where
  | vDatetime (iso : String) (latlon : Option (ℚ × ℚ))
  | vUUID (s : String) (latlon : Option (ℚ × ℚ))
  | vStr (s : String)
  | vNum (q : ℚ)
  | vBool (b : Bool)
  | vNone
  | vList (xs : List PyVal) (latlon : Option (ℚ × ℚ))
  | vDict (kvs : List (String × PyVal)) (latlon : Option (ℚ × ℚ))
  | vObj (latlon : Option (ℚ × ℚ))

mutual

/-- Lines 70-82: process a single value. The branch order is that of the
source: datetime, uuid, the latitude/longitude attribute check, list, dict,
and unchanged otherwise. The dict built by the geo branch and the containers
built by the list/dict branches are fresh plain values, hence carry no
latitude/longitude attributes. -/
def process_single_value : PyVal → PyVal
  | .vDatetime iso _ => .vStr iso
  | .vUUID s _ => .vStr s
  | .vList _ (some (la, lo)) =>
      .vDict [("latitude", .vNum la), ("longitude", .vNum lo)] none
  | .vDict _ (some (la, lo)) =>
      .vDict [("latitude", .vNum la), ("longitude", .vNum lo)] none
  | .vObj (some (la, lo)) =>
      .vDict [("latitude", .vNum la), ("longitude", .vNum lo)] none
  | .vList xs none => .vList (process_list xs) none
  | .vDict kvs none => .vDict (process_kvs kvs) none
  | v => v

/-- The list comprehension of line 79, written as explicit recursion. -/
def process_list : List PyVal → List PyVal
  | [] => []
  | x :: xs => process_single_value x :: process_list xs

/-- The dict comprehension of line 81, written as explicit recursion. -/
def process_kvs : List (String × PyVal) → List (String × PyVal)
  | [] => []
  | (k, v) :: rest => (k, process_single_value v) :: process_kvs rest

end

/-- Lines 46-68: process a properties dict. The per-value branches duplicate
those of process_single_value in the same order, with nested containers
delegated to process_single_value, exactly as in the source. -/
def process_properties : List (String × PyVal) → List (String × PyVal)
  | [] => []
  | (key, value) :: rest =>
    (key,
      match value with
      | .vDatetime iso _ => .vStr iso
      | .vUUID s _ => .vStr s
      | .vList _ (some (la, lo)) =>
          .vDict [("latitude", .vNum la), ("longitude", .vNum lo)] none
      | .vDict _ (some (la, lo)) =>
          .vDict [("latitude", .vNum la), ("longitude", .vNum lo)] none
      | .vObj (some (la, lo)) =>
          .vDict [("latitude", .vNum la), ("longitude", .vNum lo)] none
      | .vList xs none => .vList (process_list xs) none
      | .vDict kvs none => .vDict (process_kvs kvs) none
      | v => v) :: process_properties rest

/-- The metadata object of a returned row (wq.MetadataQuery distance). -/
structure Metadata where
  distance : Option ℚ

/-- One row returned by collection.query.near_text. -/
structure BackendObject where
  properties : List (String × PyVal)
  metadata : Option Metadata
  uuid : String

/-- One element of the JSON response of /query. -/
structure SearchResult where
  properties : List (String × PyVal)
  score : ℚ
  distance : Option ℚ
  uuid : String

/-- Python membership k in exclude_fields, where k is a string key and the
list may hold arbitrary JSON values: equality with a non-string is False. -/
def excludeMatches (exclude_fields : List JVal) (k : String) : Bool :=
  exclude_fields.any (fun e =>
    match e with
    | .jStr s => s == k
    | _ => false)

/-- Lines 239-258: turn one backend row into a SearchResult: serialize the
properties, drop excluded top-level keys (only when exclude_fields is
truthy, i.e. non-empty), extract the distance, and derive the score. -/
def process_object (exclude_fields : List JVal) (obj : BackendObject) : SearchResult :=
  let properties := process_properties obj.properties
  let filtered_properties :=
    if exclude_fields.isEmpty then properties
    else properties.filter (fun kv => !(excludeMatches exclude_fields kv.1))
  let distance : Option ℚ :=
    match obj.metadata with
    | some m => m.distance
    | none => none
  let score : ℚ :=
    match distance with
    | some d => 1 - d
    | none => 0
  { properties := filtered_properties
    score := score
    distance := distance
    uuid := obj.uuid }

/-- Python int() applied to a request value: truncating conversion for
numbers, parse for strings, 0/1 for booleans, TypeError otherwise. -/
def pyInt : JVal → Except String Int
  | .jNum q => .ok (q.num / (q.den : Int))
  | .jStr s =>
    match s.toInt? with
    | some n => .ok n
    | none => .error "ValueError"
  | .jBool b => .ok (if b then 1 else 0)
  | _ => .error "TypeError"

/-- Outcome of client.collections.get as observed at lines 153-162: the
source classifies a raised exception by substring tests on its message into
the not-found case and everything else; the classification is carried here
directly. -/
inductive CollResult where
  | found
  | notFoundErr (msg : String)
  | otherErr (msg : String)

/-- The external weaviate client, as the oracle the handler calls into:
collection resolution and the near_text search (collection name, query
text, limit, filter) returning the response objects list. -/
structure Backend where
  collections_get : JVal → CollResult
  near_text : JVal → JVal → Int → Option WeaviateFilter → List BackendObject

/-- An HTTP response of the /query handler: a 200 result list, or an error
status with its message. -/
inductive HttpResponse where
  | results (rows : List SearchResult)
  | error (status : Nat) (msg : String)

/-- Lines 134-267: the /query handler. Control flow follows the source:
400 for a falsy body, AttributeError (hence 500 via the outer except) for a
truthy non-dict body, 400 for falsy collection_name or query, int(top_k)
errors become 500, 400 for a non-list exclude_fields, 404/500 from
collection resolution, 500 when building the filter raises, and otherwise
the mapped rows of the near_text response. -/
def query_collection (b : Backend) (data : JVal) : HttpResponse :=
  if !(truthy data) then .error 400 "Request body must be JSON"
  else
    match data with
    | .jObj dkvs =>
      let collection_name := dictGet dkvs "collection_name"
      let query_text := dictGet dkvs "query"
      if !(truthy collection_name) || !(truthy query_text) then
        .error 400 "Missing required fields: collection_name and query"
      else
        match pyInt (dictGetD dkvs "top_k" (.jNum 5)) with
        | .error _ => .error 500 "Internal server error"
        | .ok top_k =>
          match dictGetD dkvs "exclude_fields" (.jList []) with
          | .jList exclude_fields =>
            let filters_input := dictGet dkvs "filters"
            match b.collections_get collection_name with
            | .notFoundErr _ => .error 404 "Collection not found"
            | .otherErr _ => .error 500 "Failed to access collection"
            | .found =>
              match build_weaviate_filter filters_input with
              | .error _ => .error 500 "Internal server error"
              | .ok weaviate_filter =>
                let response := b.near_text collection_name query_text top_k weaviate_filter
                .results (response.map (process_object exclude_fields))
          | _ => .error 400 "exclude_fields must be a list of strings"
    | _ => .error 500 "Internal server error"

/-- A condition the compiler validation rejects and skips while staying
fail-soft: an object whose operator member is a string (or absent), and
whose field is falsy, or whose lowered operator is unsupported, or whose
value is null/absent, or which uses like with a non-string value. -/
def skippableCond (c : JVal) : Bool :=
  match c with
  | .jObj ckvs =>
    match dictGetD ckvs "operator" (.jStr "") with
    | .jStr opRaw =>
      let op := pyLower opRaw
      !(truthy (dictGet ckvs "field"))
        || !(supported_ops.contains op)
        || isNull (dictGet ckvs "value")
        || (op == "like" && !(isJStr (dictGet ckvs "value")))
    | _ => false
  | _ => false

/-- A condition whose shape cannot make the loop body raise: an object whose
operator member is absent or bound to a string. -/
def condGetSafe (c : JVal) : Bool :=
  match c with
  | .jObj ckvs => isJStr (dictGetD ckvs "operator" (.jStr ""))
  | _ => false

/-- The surviving per-field comparisons of a conditions list, in original
order: each condition contributes its compiled comparison when it has one. -/
def survivors (conds : List JVal) : List WeaviateFilter :=
  conds.filterMap (fun c =>
    match compileCondition c with
    | .ok o => o
    | .error _ => none)

/-- A backend in which every collection resolves and every search returns
no rows. -/
def okBackend : Backend :=
  { collections_get := fun _ => .found
    near_text := fun _ _ _ _ => [] }

mutual

/-- Normalizing an already-normalized value changes nothing. -/
theorem process_single_value_idem : (v : PyVal) →
    process_single_value (process_single_value v) = process_single_value v
  | .vDatetime _ _ => rfl
  | .vUUID _ _ => rfl
  | .vStr _ => rfl
  | .vNum _ => rfl
  | .vBool _ => rfl
  | .vNone => rfl
  | .vObj none => rfl
  | .vObj (some (_, _)) => rfl
  | .vList _ (some (_, _)) => rfl
  | .vDict _ (some (_, _)) => rfl
  | .vList xs none => by
      simp only [process_single_value, process_list_idem xs]
  | .vDict kvs none => by
      simp only [process_single_value, process_kvs_idem kvs]

/-- Idempotence of the element-wise normalization of a list. -/
theorem process_list_idem : (xs : List PyVal) →
    process_list (process_list xs) = process_list xs
  | [] => rfl
  | x :: xs => by
      simp only [process_list, process_single_value_idem x, process_list_idem xs]

/-- Idempotence of the value-wise normalization of a dict. -/
theorem process_kvs_idem : (kvs : List (String × PyVal)) →
    process_kvs (process_kvs kvs) = process_kvs kvs
  | [] => rfl
  | (k, v) :: rest => by
      simp only [process_kvs, process_single_value_idem v, process_kvs_idem rest]

end

/-- process_list is the element-wise map of process_single_value. -/
theorem process_list_eq_map : (xs : List PyVal) →
    process_list xs = xs.map process_single_value
  | [] => rfl
  | x :: xs => by
      simp only [process_list, List.map_cons, process_list_eq_map xs]

/-- process_kvs maps process_single_value over the values, keeping keys. -/
theorem process_kvs_eq_map : (kvs : List (String × PyVal)) →
    process_kvs kvs = kvs.map (fun kv => (kv.1, process_single_value kv.2))
  | [] => rfl
  | (k, v) :: rest => by
      simp only [process_kvs, List.map_cons, process_kvs_eq_map rest]

/-- C6: the value normalizer is idempotent: for every representable
(acyclic, finite-depth) backend value x, normalize (normalize x) equals
normalize x. -/
theorem c6_normalizer_idempotent :
    ∀ v : PyVal, process_single_value (process_single_value v) = process_single_value v :=
  process_single_value_idem

/-- C7: the value normalizer classifies by a fixed first-match-wins
priority: timestamp to its ISO-8601 string, then unique identifier to its
string form, then a value exposing latitude and longitude accessors to a
latitude/longitude mapping, then ordered sequence (element-wise recursive
normalization preserving order), then keyed mapping (value-wise recursive
normalization preserving the key set), otherwise unchanged; a value
matching an earlier kind, even one that also exposes the latitude and
longitude accessors, is never treated as a later one. -/
theorem c7_classification_priority :
    (∀ iso g, process_single_value (.vDatetime iso g) = .vStr iso)
    ∧ (∀ s g, process_single_value (.vUUID s g) = .vStr s)
    ∧ (∀ la lo, process_single_value (.vObj (some (la, lo))) =
        .vDict [("latitude", .vNum la), ("longitude", .vNum lo)] none)
    ∧ (∀ xs la lo, process_single_value (.vList xs (some (la, lo))) =
        .vDict [("latitude", .vNum la), ("longitude", .vNum lo)] none)
    ∧ (∀ kvs la lo, process_single_value (.vDict kvs (some (la, lo))) =
        .vDict [("latitude", .vNum la), ("longitude", .vNum lo)] none)
    ∧ (∀ xs, process_single_value (.vList xs none) =
        .vList (xs.map process_single_value) none)
    ∧ (∀ kvs, process_single_value (.vDict kvs none) =
        .vDict (kvs.map (fun kv => (kv.1, process_single_value kv.2))) none)
    ∧ (∀ kvs, (process_kvs kvs).map Prod.fst = kvs.map Prod.fst)
    ∧ (∀ s, process_single_value (.vStr s) = .vStr s)
    ∧ (∀ q, process_single_value (.vNum q) = .vNum q)
    ∧ (∀ b, process_single_value (.vBool b) = .vBool b)
    ∧ process_single_value .vNone = .vNone := by
  refine ⟨fun _ _ => rfl, fun _ _ => rfl, fun _ _ => rfl, fun _ _ _ => rfl,
    fun _ _ _ => rfl, ?_, ?_, ?_, fun _ => rfl, fun _ => rfl, fun _ => rfl, rfl⟩
  · intro xs
    simp only [process_single_value, process_list_eq_map xs]
  · intro kvs
    simp only [process_single_value, process_kvs_eq_map kvs]
  · intro kvs
    simp only [process_kvs_eq_map kvs, List.map_map]
    rfl

/-- A value satisfying isJStr is a string literal. -/
theorem exists_of_isJStr (v : JVal) (h : isJStr v = true) : ∃ s, v = .jStr s := by
  cases v
  case jStr s => exact ⟨s, rfl⟩
  all_goals simp [isJStr] at h

/-- A skippable condition is skipped by the loop body without an error. -/
theorem skippable_skip (c : JVal) (h : skippableCond c = true) :
    compileCondition c = .ok none := by
  cases c with
  | jObj ckvs =>
    rcases hop : dictGetD ckvs "operator" (.jStr "") with _ | b | q | opRaw | xs | okvs
    case jNull =>
      simp only [skippableCond, hop] at h
      exact Bool.noConfusion h
    case jBool =>
      simp only [skippableCond, hop] at h
      exact Bool.noConfusion h
    case jNum =>
      simp only [skippableCond, hop] at h
      exact Bool.noConfusion h
    case jList =>
      simp only [skippableCond, hop] at h
      exact Bool.noConfusion h
    case jObj =>
      simp only [skippableCond, hop] at h
      exact Bool.noConfusion h
    case jStr =>
      simp only [skippableCond, hop] at h
      simp only [compileCondition, hop]
      split
      · rfl
      next hb =>
        rw [Bool.not_eq_true] at hb
        rw [hb, Bool.false_or, Bool.and_eq_true] at h
        have hlike : pyLower opRaw = "like" := eq_of_beq h.1
        cases hval : isJStr (dictGet ckvs "value") with
        | false =>
          simp only [hlike, hval]
          rfl
        | true =>
          have hv := h.2
          rw [hval] at hv
          exact Bool.noConfusion hv
  | jNull => exact absurd h (by simp [skippableCond])
  | jBool b => exact absurd h (by simp [skippableCond])
  | jNum q => exact absurd h (by simp [skippableCond])
  | jStr s => exact absurd h (by simp [skippableCond])
  | jList xs => exact absurd h (by simp [skippableCond])

/-- A loop over skippable conditions only contributes nothing and raises
nothing. -/
theorem compileConditions_all_skipped : (conds : List JVal) →
    (∀ c ∈ conds, skippableCond c = true) → compileConditions conds = .ok []
  | [], _ => rfl
  | c :: rest, h => by
      have hc := skippable_skip c (h c (List.mem_cons_self c rest))
      have hr := compileConditions_all_skipped rest
        (fun x hx => h x (List.mem_cons_of_mem c hx))
      rw [compileConditions, hc, hr]

/-- The loop body never raises on a condition whose operator member is
absent or a string. -/
theorem condGetSafe_no_error (c : JVal) (h : condGetSafe c = true) :
    ∃ o, compileCondition c = .ok o := by
  cases c with
  | jObj ckvs =>
    rw [condGetSafe] at h
    obtain ⟨opRaw, hop⟩ := exists_of_isJStr _ h
    simp only [compileCondition, hop]
    repeat' split
    all_goals exact ⟨_, rfl⟩
  | jNull => exact absurd h (by simp [condGetSafe])
  | jBool b => exact absurd h (by simp [condGetSafe])
  | jNum q => exact absurd h (by simp [condGetSafe])
  | jStr s => exact absurd h (by simp [condGetSafe])
  | jList xs => exact absurd h (by simp [condGetSafe])

/-- A skipped head condition contributes nothing to the survivors. -/
theorem survivors_cons_none (c : JVal) (rest : List JVal)
    (h : compileCondition c = .ok none) :
    survivors (c :: rest) = survivors rest := by
  simp only [survivors, List.filterMap_cons, h]

/-- A surviving head condition contributes its comparison first. -/
theorem survivors_cons_some (c : JVal) (rest : List JVal) (f : WeaviateFilter)
    (h : compileCondition c = .ok (some f)) :
    survivors (c :: rest) = f :: survivors rest := by
  simp only [survivors, List.filterMap_cons, h]

/-- Over safe conditions the loop returns exactly the surviving comparisons
in original order. -/
theorem compileConditions_safe : (conds : List JVal) →
    (∀ c ∈ conds, condGetSafe c = true) →
    compileConditions conds = .ok (survivors conds)
  | [], _ => rfl
  | c :: rest, h => by
      obtain ⟨o, ho⟩ := condGetSafe_no_error c (h c (List.mem_cons_self c rest))
      have hr := compileConditions_safe rest
        (fun x hx => h x (List.mem_cons_of_mem c hx))
      cases o with
      | none =>
        rw [compileConditions, ho, hr, survivors_cons_none c rest ho]
      | some f =>
        rw [compileConditions, ho, hr, survivors_cons_some c rest f ho]

/-- Whenever the loop finishes without raising, its result is the list of
surviving comparisons in original order. -/
theorem compileConditions_ok_survivors : (conds : List JVal) →
    (fcs : List WeaviateFilter) → compileConditions conds = .ok fcs →
    fcs = survivors conds
  | [], fcs, h => by
      rw [compileConditions] at h
      injection h with h
      rw [← h]
      rfl
  | c :: rest, fcs, h => by
      rw [compileConditions] at h
      rcases hc : compileCondition c with e | o
      · rw [hc] at h
        exact Except.noConfusion h
      · rw [hc] at h
        cases o with
        | none =>
          rw [survivors_cons_none c rest hc]
          exact compileConditions_ok_survivors rest fcs h
        | some f =>
          rcases hrest : compileConditions rest with e | fs
          · rw [hrest] at h
            exact Except.noConfusion h
          · rw [hrest] at h
            injection h with h
            rw [survivors_cons_some c rest f hc, ← h,
              compileConditions_ok_survivors rest fs hrest]

/-- C1 (amended): a condition that is an object whose operator member is
absent or a string, and which has an unsupported operator, a missing or
empty (falsy) field, a null or absent value, or a non-string value under
like, is skipped and contributes no comparison; if every condition of a
filter specification whose own operator member is absent or a string is of
that form, the compiled predicate is null and no error is raised. (The
unamended claim fails when the operator member of a condition is present
but not a string: the compiler then raises instead of skipping.) -/
theorem c1_invalid_conditions_skipped :
    (∀ c : JVal, skippableCond c = true → compileCondition c = .ok none)
    ∧ (∀ (fkvs : List (String × JVal)) (conds : List JVal),
        dictGetD fkvs "conditions" (.jList []) = .jList conds →
        isJStr (dictGetD fkvs "operator" (.jStr "And")) = true →
        (∀ c ∈ conds, skippableCond c = true) →
        build_weaviate_filter (.jObj fkvs) = .ok none) := by
  refine ⟨skippable_skip, ?_⟩
  intro fkvs conds hconds hopstr hall
  cases fkvs with
  | nil => rfl
  | cons p ps =>
    obtain ⟨opRaw, hop⟩ := exists_of_isJStr _ hopstr
    rw [build_weaviate_filter]
    simp only [List.isEmpty_cons, Bool.false_eq_true, if_false, hop, hconds]
    cases conds with
    | nil => rfl
    | cons c cs =>
      rw [compileConditions_all_skipped (c :: cs) hall]
      rfl

/-- C1 counterexample: a condition whose unsupported operator is the number
5 is not skipped: compiling the specification raises (AttributeError on
lower), so the compiled predicate is not null and an error is raised. -/
theorem c1_counterexample_nonstring_condition_operator :
    build_weaviate_filter (.jObj [("conditions", .jList [.jObj
        [("field", .jStr "x"), ("operator", .jNum 5), ("value", .jNum 1)]])])
      = .error "AttributeError: lower"
    ∧ build_weaviate_filter (.jObj [("conditions", .jList [.jObj
        [("field", .jStr "x"), ("operator", .jNum 5), ("value", .jNum 1)]])])
      ≠ .ok none :=
  ⟨rfl, fun h => nomatch h⟩

/-- C1 witness: a specification whose only condition carries the
unsupported string operator bogus compiles to the null predicate. -/
theorem c1_witness_bogus_operator :
    build_weaviate_filter (.jObj [("conditions", .jList [.jObj
        [("field", .jStr "year"), ("operator", .jStr "bogus"), ("value", .jNum 2020)]])])
      = .ok none :=
  c1_invalid_conditions_skipped.2
    [("conditions", .jList [.jObj
      [("field", .jStr "year"), ("operator", .jStr "bogus"), ("value", .jNum 2020)]])]
    [.jObj [("field", .jStr "year"), ("operator", .jStr "bogus"), ("value", .jNum 2020)]]
    rfl rfl
    (by
      intro c hc
      rw [List.mem_singleton.mp hc]
      rfl)

/-- C2 (amended): with a string operator member (or none, defaulting to
And), a non-empty conditions list that compiles without raising, and at
least one surviving comparison, the compiled predicate is one flat group
over the surviving per-field comparisons in original condition order:
any_of when the lowered operator is the string or, all_of for every other
string. (The unamended claim fails for a non-string operator member, which
raises instead of combining with AND.) -/
theorem c2_single_flat_group (fkvs : List (String × JVal)) (conds : List JVal)
    (opRaw : String) (fcs : List WeaviateFilter)
    (hconds : dictGetD fkvs "conditions" (.jList []) = .jList conds)
    (hop : dictGetD fkvs "operator" (.jStr "And") = .jStr opRaw)
    (hcomp : compileConditions conds = .ok fcs)
    (hne : fcs ≠ []) :
    build_weaviate_filter (.jObj fkvs) =
      .ok (some (if pyLower opRaw == "or" then .any_of fcs else .all_of fcs))
    ∧ fcs = survivors conds := by
  refine ⟨?_, compileConditions_ok_survivors conds fcs hcomp⟩
  have hcne : conds ≠ [] := by
    rintro rfl
    rw [compileConditions] at hcomp
    injection hcomp with hfcs
    exact hne hfcs.symm
  have hfne : fkvs ≠ [] := by
    rintro rfl
    have hl : JVal.jList [] = JVal.jList conds := hconds
    injection hl with hl
    exact hcne hl.symm
  have h1 : fkvs.isEmpty = false := by
    cases fkvs with
    | nil => exact absurd rfl hfne
    | cons a l => rfl
  have h2 : conds.isEmpty = false := by
    cases conds with
    | nil => exact absurd rfl hcne
    | cons a l => rfl
  have h3 : fcs.isEmpty = false := by
    cases fcs with
    | nil => exact absurd rfl hne
    | cons a l => rfl
  simp [build_weaviate_filter, h1, h2, h3, hconds, hop, hcomp]
  by_cases hor : pyLower opRaw = "or"
  · simp [hor]
  · simp [hor]

/-- C2 counterexample: with a non-string operator member (the number 1) and
one valid condition, building the filter raises (the request then fails
with a 500), instead of combining the comparisons with logical AND. -/
theorem c2_counterexample_nonstring_spec_operator :
    build_weaviate_filter (.jObj [("operator", .jNum 1), ("conditions", .jList
      [.jObj [("field", .jStr "year"), ("operator", .jStr "eq"), ("value", .jNum 2020)]])])
      = .error "AttributeError: lower"
    ∧ build_weaviate_filter (.jObj [("operator", .jNum 1), ("conditions", .jList
      [.jObj [("field", .jStr "year"), ("operator", .jStr "eq"), ("value", .jNum 2020)]])])
      ≠ .ok (some (.all_of [.comparison (.jStr "year") .equal (.jNum 2020)])) :=
  ⟨rfl, fun h => nomatch h⟩

/-- C2 witness: an Or specification with two valid conditions compiles to
one flat any_of group holding both comparisons in order. -/
theorem c2_witness_or_two_conditions :
    build_weaviate_filter (.jObj [("operator", .jStr "Or"), ("conditions", .jList
      [.jObj [("field", .jStr "status"), ("operator", .jStr "eq"), ("value", .jStr "active")],
       .jObj [("field", .jStr "year"), ("operator", .jStr "gte"), ("value", .jNum 2020)]])])
      = .ok (some (.any_of
          [.comparison (.jStr "status") .equal (.jStr "active"),
           .comparison (.jStr "year") .greater_or_equal (.jNum 2020)])) :=
  (c2_single_flat_group
    [("operator", .jStr "Or"), ("conditions", .jList
      [.jObj [("field", .jStr "status"), ("operator", .jStr "eq"), ("value", .jStr "active")],
       .jObj [("field", .jStr "year"), ("operator", .jStr "gte"), ("value", .jNum 2020)]])]
    [.jObj [("field", .jStr "status"), ("operator", .jStr "eq"), ("value", .jStr "active")],
     .jObj [("field", .jStr "year"), ("operator", .jStr "gte"), ("value", .jNum 2020)]]
    "Or"
    [.comparison (.jStr "status") .equal (.jStr "active"),
     .comparison (.jStr "year") .greater_or_equal (.jNum 2020)]
    rfl rfl rfl (List.cons_ne_nil _ _)).1

/-- A non-empty dict key lookup that is truthy forces a non-empty dict. -/
theorem truthy_dictGet_ne_nil (dkvs : List (String × JVal)) (key : String)
    (h : truthy (dictGet dkvs key) = true) : dkvs ≠ [] := by
  rintro rfl
  exact Bool.noConfusion h

/-- A non-empty dict is truthy. -/
theorem truthy_jObj_of_ne_nil (dkvs : List (String × JVal)) (h : dkvs ≠ []) :
    truthy (.jObj dkvs) = true := by
  cases dkvs with
  | nil => exact absurd rfl h
  | cons a l => rfl

/-- The success path of the /query handler: when the body is a dict with
truthy collection_name and query, top_k converts, exclude_fields is a list,
the collection resolves and the filter builds without raising, the response
is the row list of the near_text call mapped through process_object. -/
theorem query_collection_success (b : Backend) (dkvs : List (String × JVal))
    (k : Int) (ex : List JVal) (f : Option WeaviateFilter)
    (hname : truthy (dictGet dkvs "collection_name") = true)
    (hquery : truthy (dictGet dkvs "query") = true)
    (hk : pyInt (dictGetD dkvs "top_k" (.jNum 5)) = .ok k)
    (hex : dictGetD dkvs "exclude_fields" (.jList []) = .jList ex)
    (hcoll : b.collections_get (dictGet dkvs "collection_name") = .found)
    (hfilt : build_weaviate_filter (dictGet dkvs "filters") = .ok f) :
    query_collection b (.jObj dkvs) =
      .results ((b.near_text (dictGet dkvs "collection_name")
        (dictGet dkvs "query") k f).map (process_object ex)) := by
  have h1 := truthy_jObj_of_ne_nil dkvs (truthy_dictGet_ne_nil dkvs "collection_name" hname)
  simp [query_collection, h1, hname, hquery, hk, hex, hcoll, hfilt]

/-- C3 (amended): a malformed condition that is an object whose operator
member is absent or a string never makes compilation raise: the loop
returns exactly the reduced valid subset of comparisons, in order; and
whenever the filter compiles without raising, the request succeeds and
answers with the backend rows, so no error is returned on account of a
skipped condition. (The unamended claim fails for a conditions entry that
is not an object, which makes the request fail with a 500.) -/
theorem c3_safe_conditions_fail_soft :
    (∀ conds : List JVal, (∀ c ∈ conds, condGetSafe c = true) →
        compileConditions conds = .ok (survivors conds))
    ∧ (∀ (b : Backend) (dkvs : List (String × JVal)) (k : Int) (ex : List JVal)
        (f : Option WeaviateFilter),
        truthy (dictGet dkvs "collection_name") = true →
        truthy (dictGet dkvs "query") = true →
        pyInt (dictGetD dkvs "top_k" (.jNum 5)) = .ok k →
        dictGetD dkvs "exclude_fields" (.jList []) = .jList ex →
        b.collections_get (dictGet dkvs "collection_name") = .found →
        build_weaviate_filter (dictGet dkvs "filters") = .ok f →
        query_collection b (.jObj dkvs) =
          .results ((b.near_text (dictGet dkvs "collection_name")
            (dictGet dkvs "query") k f).map (process_object ex))) :=
  ⟨compileConditions_safe,
   fun b dkvs k ex f hname hquery hk hex hcoll hfilt =>
     query_collection_success b dkvs k ex f hname hquery hk hex hcoll hfilt⟩

/-- C3 counterexample: a conditions entry that is not an object (here the
string notadict) makes the /query request fail with the 500 internal error
response instead of being skipped. -/
theorem c3_counterexample_nonobject_condition :
    query_collection okBackend (.jObj
      [("collection_name", .jStr "Docs"), ("query", .jStr "hello"),
       ("filters", .jObj [("conditions", .jList [.jStr "notadict"])])])
      = .error 500 "Internal server error" := rfl

/-- C3 witness: a bogus-operator condition is dropped while a valid one
survives, and a request whose only condition is bogus succeeds. -/
theorem c3_witness_reduced_subset :
    compileConditions
      [.jObj [("field", .jStr "year"), ("operator", .jStr "bogus"), ("value", .jNum 2020)],
       .jObj [("field", .jStr "status"), ("operator", .jStr "eq"), ("value", .jStr "active")]]
      = .ok [.comparison (.jStr "status") .equal (.jStr "active")]
    ∧ query_collection okBackend (.jObj
        [("collection_name", .jStr "Docs"), ("query", .jStr "hello"),
         ("filters", .jObj [("conditions", .jList [.jObj
           [("field", .jStr "year"), ("operator", .jStr "bogus"), ("value", .jNum 2020)]])])])
        = .results [] :=
  ⟨c3_safe_conditions_fail_soft.1
      [.jObj [("field", .jStr "year"), ("operator", .jStr "bogus"), ("value", .jNum 2020)],
       .jObj [("field", .jStr "status"), ("operator", .jStr "eq"), ("value", .jStr "active")]]
      (by decide),
   c3_safe_conditions_fail_soft.2 okBackend
     [("collection_name", .jStr "Docs"), ("query", .jStr "hello"),
      ("filters", .jObj [("conditions", .jList [.jObj
        [("field", .jStr "year"), ("operator", .jStr "bogus"), ("value", .jNum 2020)]])])]
     5 [] none rfl rfl rfl rfl rfl rfl⟩

/-- C4: for every backend row the emitted score is exactly 1 - d when the
metadata carries a non-null distance d (including d = 0), and 0 when the
metadata is absent or its distance is null; the raw distance is echoed
unchanged in the distance field. -/
theorem c4_score_is_one_minus_distance (ex : List JVal) (obj : BackendObject) :
    (∀ m : Metadata, obj.metadata = some m → ∀ d : ℚ, m.distance = some d →
        (process_object ex obj).score = 1 - d
          ∧ (process_object ex obj).distance = some d)
    ∧ (∀ m : Metadata, obj.metadata = some m → m.distance = none →
        (process_object ex obj).score = 0
          ∧ (process_object ex obj).distance = none)
    ∧ (obj.metadata = none →
        (process_object ex obj).score = 0
          ∧ (process_object ex obj).distance = none) := by
  refine ⟨?_, ?_, ?_⟩
  · intro m hm d hd
    simp [process_object, hm, hd]
  · intro m hm hd
    simp [process_object, hm, hd]
  · intro hm
    simp [process_object, hm]

/-- C4 witness: a row with distance 0 is emitted with score 1 and
distance 0. -/
theorem c4_witness_distance_zero :
    (process_object []
      { properties := [], metadata := some { distance := some 0 }, uuid := "u" }).score = 1
    ∧ (process_object []
      { properties := [], metadata := some { distance := some 0 }, uuid := "u" }).distance
        = some 0 := by
  have h := (c4_score_is_one_minus_distance []
    { properties := [], metadata := some { distance := some 0 }, uuid := "u" }).1
    { distance := some 0 } rfl 0 rfl
  simpa using h

/-- C5 (amended): the emitted score lies in the unit interval whenever the
backend distance, when present, itself lies in the unit interval; with no
distance the score is 0. (The unamended claim fails because the handler
does not clamp: a backend distance above 1, which weaviate cosine distance
permits, yields a negative score.) -/
theorem c5_score_in_unit_interval (ex : List JVal) (obj : BackendObject)
    (h : ∀ m : Metadata, obj.metadata = some m → ∀ d : ℚ, m.distance = some d →
        0 ≤ d ∧ d ≤ 1) :
    0 ≤ (process_object ex obj).score ∧ (process_object ex obj).score ≤ 1 := by
  rcases hm : obj.metadata with _ | m
  · simp [process_object, hm]
  · rcases hd : m.distance with _ | d
    · simp [process_object, hm, hd]
    · obtain ⟨h0, hle⟩ := h m hm d hd
      have hs : (process_object ex obj).score = 1 - d := by
        simp [process_object, hm, hd]
      rw [hs]
      constructor
      · linarith
      · linarith

/-- C5 counterexample: a backend row with distance 2 is emitted with score
1 - 2 = -1, which lies outside the interval from 0 to 1. -/
theorem c5_counterexample_distance_two :
    (process_object []
      { properties := [], metadata := some { distance := some 2 }, uuid := "u" }).score = -1
    ∧ (process_object []
      { properties := [], metadata := some { distance := some 2 }, uuid := "u" }).score < 0 := by
  have hs : (process_object []
      { properties := [], metadata := some { distance := some 2 }, uuid := "u" }).score
      = 1 - 2 := by
    simp [process_object]
  constructor
  · rw [hs]
    norm_num
  · rw [hs]
    norm_num

/-- C5 witness: a row with distance 1 has score between 0 and 1. -/
theorem c5_witness_distance_one :
    0 ≤ (process_object []
      { properties := [], metadata := some { distance := some 1 }, uuid := "u" }).score
    ∧ (process_object []
      { properties := [], metadata := some { distance := some 1 }, uuid := "u" }).score ≤ 1 :=
  c5_score_in_unit_interval []
    { properties := [], metadata := some { distance := some 1 }, uuid := "u" }
    (by
      intro m hm d hd
      cases hm
      cases hd
      exact ⟨zero_le_one, le_refl 1⟩)

/-- C8 (amended): a request whose exclude_fields member is present but not
a list fails with the 400 response before any backend call (the response is
the same for every backend); element types inside a list are not checked,
so a list containing non-string elements is accepted. -/
theorem c8_exclude_fields_must_be_list (b : Backend) (dkvs : List (String × JVal))
    (k : Int) (exv : JVal)
    (hname : truthy (dictGet dkvs "collection_name") = true)
    (hquery : truthy (dictGet dkvs "query") = true)
    (hk : pyInt (dictGetD dkvs "top_k" (.jNum 5)) = .ok k)
    (hex : dictGetD dkvs "exclude_fields" (.jList []) = exv)
    (hnl : ∀ xs : List JVal, exv ≠ .jList xs) :
    query_collection b (.jObj dkvs)
      = .error 400 "exclude_fields must be a list of strings" := by
  have h1 := truthy_jObj_of_ne_nil dkvs (truthy_dictGet_ne_nil dkvs "collection_name" hname)
  rcases exv with _ | bb | q | s | xs | okvs
  case jList => exact absurd rfl (hnl xs)
  all_goals simp [query_collection, h1, hname, hquery, hk, hex]

/-- C8 counterexample: exclude_fields holding a non-string element is not
rejected: the request succeeds against a backend, so no 400 is returned and
the backend call is reached. -/
theorem c8_counterexample_nonstring_elements :
    query_collection okBackend (.jObj
      [("collection_name", .jStr "Docs"), ("query", .jStr "hello"),
       ("exclude_fields", .jList [.jStr "a", .jNum 5])])
      = .results []
    ∧ query_collection okBackend (.jObj
      [("collection_name", .jStr "Docs"), ("query", .jStr "hello"),
       ("exclude_fields", .jList [.jStr "a", .jNum 5])])
      ≠ .error 400 "exclude_fields must be a list of strings" :=
  ⟨rfl, fun h => nomatch h⟩

/-- C8 witness: exclude_fields bound to a plain string is rejected with the
400 response. -/
theorem c8_witness_string_exclude_fields :
    query_collection okBackend (.jObj
      [("collection_name", .jStr "Docs"), ("query", .jStr "hello"),
       ("exclude_fields", .jStr "nope")])
      = .error 400 "exclude_fields must be a list of strings" :=
  c8_exclude_fields_must_be_list okBackend
    [("collection_name", .jStr "Docs"), ("query", .jStr "hello"),
     ("exclude_fields", .jStr "nope")]
    5 (.jStr "nope") rfl rfl rfl rfl (fun _ h => nomatch h)

/-- C9: field exclusion removes from the normalized properties of a row
exactly the top-level keys named in exclude_fields and no others: a
key/value pair survives exclusion exactly when it is in the normalized
properties and its key matches no exclude_fields entry; surviving values,
including containers with identically-named keys nested inside, pass
through untouched. -/
theorem c9_exclusion_exact_top_level (ex : List JVal) (obj : BackendObject)
    (k : String) (v : PyVal) :
    (k, v) ∈ (process_object ex obj).properties ↔
      ((k, v) ∈ process_properties obj.properties ∧ excludeMatches ex k = false) := by
  cases ex with
  | nil => simp [process_object, excludeMatches]
  | cons e es =>
    simp [process_object, List.mem_filter]

/-- C10: the required-field check of the /query handler uses truthiness:
binding collection_name or query to the empty string yields the 400
missing-required-fields response, for every backend, so no backend call is
made. -/
theorem c10_empty_string_required_fields (b : Backend) (dkvs : List (String × JVal))
    (h : dictGet dkvs "collection_name" = .jStr "" ∨ dictGet dkvs "query" = .jStr "") :
    query_collection b (.jObj dkvs)
      = .error 400 "Missing required fields: collection_name and query" := by
  have hne : dkvs ≠ [] := by
    rintro rfl
    rcases h with h | h
    · exact JVal.noConfusion (show JVal.jNull = JVal.jStr "" from h)
    · exact JVal.noConfusion (show JVal.jNull = JVal.jStr "" from h)
  have h1 := truthy_jObj_of_ne_nil dkvs hne
  have he : truthy (.jStr "") = false := rfl
  rcases h with h | h
  · simp [query_collection, h1, h, he]
  · simp [query_collection, h1, h, he]

/-- C10 witness: an empty collection_name with a non-empty query is
rejected with the missing-required-fields 400 response. -/
theorem c10_witness_empty_collection_name :
    query_collection okBackend
      (.jObj [("collection_name", .jStr ""), ("query", .jStr "hi")])
      = .error 400 "Missing required fields: collection_name and query" :=
  c10_empty_string_required_fields okBackend
    [("collection_name", .jStr ""), ("query", .jStr "hi")] (Or.inl rfl)

end ClaudeApi
